import Mathlib

/-!
Shallow embedding of src/ConvertLeicaSCN400F.cc (the only source file).

The program opens a Leica .scn (BigTIFF) container, reads the XML image
description from the first TIFF directory, resolves which TIFF directories
hold full-resolution channel planes, then walks the remaining directories,
decodes each selected one with TIFFReadRGBAImage, extracts one 8-bit colour
channel and writes it as a raw .bin file.

External collaborators (libtiff, libxml2, the filesystem) are modelled by
explicit data: a TIFF directory carries its reported width/height, its
decoded RGBA raster as a function from pixel index to the packed 32-bit
value, and Booleans saying whether TIFFReadRGBAImage succeeds, whether
_TIFFmalloc succeeds, and whether the ofstream write succeeds (the source
never checks the stream, so on a failed open/write the file is simply not
produced).  XML parsing is modelled by a Boolean (xmlParseMemory success)
plus the parsed node sets; attribute lookup on the collection returns
Option Int because xmlGetProp yields NULL for an absent attribute.
Places where the C++ dereferences a possibly-NULL pointer
(nodeTab[0] of an empty node set, atol(NULL)) are modelled by a distinct
crash outcome: the C source has no defined behaviour there.
The argc check (return -1) and operator new are outside every claim and
are elided: inputs carry both arguments, and new uint8[] is assumed to
succeed (its failure throws, it does not reach any of the exit codes).
-/

namespace SlideData

/-- Truncation to a 32-bit unsigned value, as C++ uint32 arithmetic does. -/
def u32 (n : Nat) : Nat := n % 4294967296

/-- Red component of a packed RGBA pixel, as libtiff's TIFFGetR. -/
def TIFFGetR (v : Nat) : Nat := v % 256

/-- Green component of a packed RGBA pixel, as libtiff's TIFFGetG. -/
def TIFFGetG (v : Nat) : Nat := v / 256 % 256

/-- Blue component of a packed RGBA pixel, as libtiff's TIFFGetB. -/
def TIFFGetB (v : Nat) : Nat := v / 65536 % 256

/-- A view element under an image: its sizeX/sizeY attributes (atol results). -/
structure ViewNode where
  sizeX : Int
  sizeY : Int
deriving DecidableEq

/-- A pixels/dimension element under an image: r, c and ifd attributes. -/
structure DimNode where
  r : Int
  c : Int
  ifd : Int
deriving DecidableEq

/-- An image element: its view children and its pixels/dimension children,
in document order. -/
structure ImgNode where
  views : List ViewNode
  dims : List DimNode
deriving DecidableEq

/-- A collection element; xmlGetProp returns NULL for an absent attribute,
hence Option. -/
structure CollNode where
  sizeX : Option Int
  sizeY : Option Int
deriving DecidableEq

/-- The parsed XML document: the //collection node set and the image
elements in document order. -/
structure MetaDoc where
  collections : List CollNode
  images : List ImgNode
deriving DecidableEq

/-- One resolved selection entry: the parallel vectors channelID,
TIFFDirectories, ImageNo of the source, one index position. -/
structure SelEntry where
  channelID : Int
  tiffDir : Int
  imageNo : Nat
deriving DecidableEq

/-- The entries pushed for one accepted image: every dimension with r = 0
(the XPath query image[jj]/pixels/dimension[@r=0]) contributes its c and
ifd, tagged with the current icount.  The source pushes every node of the
node set; nothing is deduplicated. -/
def selOfImage (img : ImgNode) (icount : Nat) : List SelEntry :=
  (img.dims.filter fun d => decide (d.r = 0)).map fun d =>
    { channelID := d.c, tiffDir := d.ifd, imageNo := icount }

/-- The while loop over images (source lines 196-229).  The loop condition
is that the node set image[jj]/view is non-empty, so the loop stops at the
first image with no view children (and at the end of the image list).  Only
nodeTab[0] — the first view of the image — is compared against the
collection dimensions, with the test xview != xcollection &&
yview != ycollection.  icount advances only for accepted images. -/
def resolveImages (xc yc : Int) : List ImgNode → Nat → List SelEntry
  | [], _ => []
  | img :: rest, icount =>
    match img.views with
    | [] => []
    | v :: _ =>
      if v.sizeX ≠ xc ∧ v.sizeY ≠ yc then
        selOfImage img icount ++ resolveImages xc yc rest (icount + 1)
      else
        resolveImages xc yc rest icount

/-- One TIFF directory after the metadata directory: reported width and
height (TIFFTAG_IMAGEWIDTH/IMAGELENGTH, uint32 values), the decoded RGBA
raster, and the success of TIFFReadRGBAImage, of _TIFFmalloc and of the
output stream write for this directory. -/
structure TiffDir where
  width : Nat
  height : Nat
  raster : Nat → Nat
  decodeOK : Bool
  allocOK : Bool
  writeOK : Bool

/-- Channel extraction (the switch on channelID): red, green or blue byte
of the packed pixel.  On any other channel id the source prints a warning
and leaves the byte unset; the claims never reach that branch, it
is modelled as 0. -/
def extractChannel (c : Int) (v : Nat) : Nat :=
  if c = 0 then TIFFGetR v
  else if c = 1 then TIFFGetG v
  else if c = 2 then TIFFGetB v
  else 0

/-- Output filename (source line 262). -/
def fname (pfx : String) (imageNo : Nat) (channelID : Int) (w h : Nat) : String :=
  pfx ++ "Image" ++ toString imageNo ++ "_Channel" ++ toString channelID ++
    "_X" ++ toString w ++ "_Y" ++ toString h ++ ".bin"

/-- A file on disk: its name and its bytes. -/
structure OutFile where
  name : String
  bytes : List Nat
deriving DecidableEq

/-- The file written for one matched directory: Npixels = ww*hh computed in
uint32 (overflow wraps), one byte per pixel taken from the selected channel
of raster[i]. -/
def mkFile (pfx : String) (e : SelEntry) (d : TiffDir) : OutFile :=
  { name := fname pfx e.imageNo e.channelID d.width d.height
    bytes := (List.range (u32 (d.width * d.height))).map fun i =>
      extractChannel e.channelID (d.raster i) }

/-- Outcome of a run.  ok fs: main returns 0 with files fs on disk.
err k fs: exit(k) was called with files fs already on disk.  crash: the
source dereferenced a NULL pointer (empty //collection node set, or
atol(NULL) for an absent collection attribute); C++ gives this no defined
behaviour, in particular it is not one of the documented exits. -/
inductive RunResult where
  | ok : List OutFile → RunResult
  | err : Nat → List OutFile → RunResult
  | crash : RunResult
deriving DecidableEq

/-- The files present on disk at the end of a run. -/
def filesOf : RunResult → List OutFile
  | .ok fs => fs
  | .err _ fs => fs
  | .crash => []

/-- The ifd attributes of every r = 0 dimension of every image, in document
order: the pool the resolver draws its directory indices from. -/
def allR0Ifds (imgs : List ImgNode) : List Int :=
  imgs.flatMap fun img => (img.dims.filter fun d => decide (d.r = 0)).map DimNode.ifd

/-- The inner for loop over the selection vectors (source lines 246-253):
iwrite is overwritten by every entry whose TIFFDirectories value equals
iTIFFdir, so the last matching entry wins; flag_dir records whether any
matched. -/
def lastMatch (sel : List SelEntry) (pos : Int) : Option SelEntry :=
  sel.foldl (fun acc e => if e.tiffDir = pos then some e else acc) none

/-- Processing of one visited directory (source lines 246-301).  Unmatched
directories are skipped.  For a matched one: _TIFFmalloc failure exits 4,
TIFFReadRGBAImage failure exits 3, otherwise the plane is extracted and
written; the stream is never checked, so a failed write just leaves no
file and the run continues. -/
def dirStep (pfx : String) (sel : List SelEntry) (pos : Int) (d : TiffDir) :
    Except Nat (List OutFile) :=
  match lastMatch sel pos with
  | none => .ok []
  | some e =>
    if d.allocOK then
      if d.decodeOK then
        if d.writeOK then .ok [mkFile pfx e d] else .ok []
      else .error 3
    else .error 4

/-- The while (TIFFReadDirectory) loop: iTIFFdir starts at 0 and is
incremented before the directory is examined, so the first directory after
the metadata directory has position 1. -/
def scanLoop (pfx : String) (sel : List SelEntry) :
    List TiffDir → Int → List OutFile → RunResult
  | [], _, acc => .ok acc
  | d :: rest, pos, acc =>
    match dirStep pfx sel pos d with
    | .ok fs => scanLoop pfx sel rest (pos + 1) (acc ++ fs)
    | .error k => .err k acc

/-- A run's input: the output filename pfx (argv[2]), whether TIFFOpen
succeeds, whether xmlParseMemory succeeds, the parsed document, and the
TIFF directories after the metadata directory. -/
structure Input where
  pfx : String
  tifOpenOK : Bool
  xmlParseOK : Bool
  doc : MetaDoc
  dirs : List TiffDir

/-- The whole program (main).  TIFFOpen failure exits 1; xmlParseMemory
failure exits 2.  The collection lookup takes nodeTab[0] of the
//collection node set without checking nodeNr, and feeds xmlGetProp
results to atol without checking for NULL: both are crashes on bad
metadata.  Then the selection list is resolved and the directories are
scanned from position 1. -/
def run (inp : Input) : RunResult :=
  if inp.tifOpenOK = false then .err 1 []
  else if inp.xmlParseOK = false then .err 2 []
  else
    match inp.doc.collections with
    | [] => .crash
    | cNode :: _ =>
      match cNode.sizeX with
      | none => .crash
      | some xc =>
        match cNode.sizeY with
        | none => .crash
        | some yc =>
          scanLoop inp.pfx (resolveImages xc yc inp.doc.images 0) inp.dirs 1 []

/-! Concrete containers used to settle the claims on explicit inputs. -/

/-- A full-resolution directory of 2000 x 1500 pixels, all collaborators
succeeding; the raster is constant 0. -/
def dir2000 : TiffDir :=
  { width := 2000, height := 1500, raster := fun _ => 0,
    decodeOK := true, allocOK := true, writeOK := true }

/-- Metadata of the synthetic container of Scenario A: collection
1000 x 1000, one image with a single 2000 x 1500 view and three r = 0
dimensions c = 0/1/2 at ifd 1/2/3. -/
def scenarioDoc : MetaDoc :=
  { collections := [{ sizeX := some 1000, sizeY := some 1000 }]
    images := [{ views := [{ sizeX := 2000, sizeY := 1500 }]
                 dims := [{ r := 0, c := 0, ifd := 1 },
                          { r := 0, c := 1, ifd := 2 },
                          { r := 0, c := 2, ifd := 3 }] }] }

/-- The Scenario A container: three post-metadata directories, each
reporting 2000 x 1500. -/
def scenarioInput : Input :=
  { pfx := "out_", tifOpenOK := true, xmlParseOK := true,
    doc := scenarioDoc, dirs := [dir2000, dir2000, dir2000] }

/-- One image whose first view equals the 1000 x 1000 collection while its
second view differs from it in both axes. -/
def firstViewMatchImages : List ImgNode :=
  [{ views := [{ sizeX := 1000, sizeY := 1000 }, { sizeX := 2000, sizeY := 1500 }],
     dims := [{ r := 0, c := 0, ifd := 1 }] }]

/-- One accepted image carrying two r = 0 dimensions with the same channel
id 0 but different ifds. -/
def dupChannelImages : List ImgNode :=
  [{ views := [{ sizeX := 2000, sizeY := 1500 }],
     dims := [{ r := 0, c := 0, ifd := 1 }, { r := 0, c := 0, ifd := 2 }] }]

/-- One accepted image whose two r = 0 dimensions repeat the ifd value 5. -/
def dupIfdImages : List ImgNode :=
  [{ views := [{ sizeX := 2000, sizeY := 1500 }],
     dims := [{ r := 0, c := 0, ifd := 5 }, { r := 0, c := 1, ifd := 5 }] }]

/-- Well-formed XML whose //collection node set is empty. -/
def noCollectionInput : Input :=
  { pfx := "p", tifOpenOK := true, xmlParseOK := true,
    doc := { collections := [], images := [] }, dirs := [] }

/-- A collection element lacking its sizeX attribute. -/
def noSizeXInput : Input :=
  { pfx := "p", tifOpenOK := true, xmlParseOK := true,
    doc := { collections := [{ sizeX := none, sizeY := some 10 }], images := [] },
    dirs := [] }

/-- A 2 x 1 directory with every collaborator succeeding. -/
def okDir : TiffDir :=
  { width := 2, height := 1, raster := fun _ => 0,
    decodeOK := true, allocOK := true, writeOK := true }

/-- A 2 x 1 directory whose output-stream write fails. -/
def badWriteDir : TiffDir :=
  { width := 2, height := 1, raster := fun _ => 0,
    decodeOK := true, allocOK := true, writeOK := false }

/-- A 2 x 1 directory whose TIFFReadRGBAImage fails. -/
def badDecodeDir : TiffDir :=
  { width := 2, height := 1, raster := fun _ => 0,
    decodeOK := false, allocOK := true, writeOK := true }

/-- A 2 x 1 directory whose _TIFFmalloc fails. -/
def badAllocDir : TiffDir :=
  { width := 2, height := 1, raster := fun _ => 0,
    decodeOK := true, allocOK := false, writeOK := true }

/-- Metadata selecting channel 0 at ifd 1 for a single accepted image. -/
def oneChanDoc : MetaDoc :=
  { collections := [{ sizeX := some 10, sizeY := some 10 }]
    images := [{ views := [{ sizeX := 2, sizeY := 1 }]
                 dims := [{ r := 0, c := 0, ifd := 1 }] }] }

/-- Metadata selecting channel 0 at ifd 1 and channel 1 at ifd 2 for a
single accepted image. -/
def twoChanDoc : MetaDoc :=
  { collections := [{ sizeX := some 10, sizeY := some 10 }]
    images := [{ views := [{ sizeX := 2, sizeY := 1 }]
                 dims := [{ r := 0, c := 0, ifd := 1 }, { r := 0, c := 1, ifd := 2 }] }] }

/-- A run whose first selected directory's write fails while the second
succeeds. -/
def writeFailInput : Input :=
  { pfx := "p", tifOpenOK := true, xmlParseOK := true,
    doc := twoChanDoc, dirs := [badWriteDir, okDir] }

/-- A fully successful single-plane run. -/
def smallInput : Input :=
  { pfx := "p", tifOpenOK := true, xmlParseOK := true,
    doc := oneChanDoc, dirs := [okDir] }

/-- A run whose selected directory cannot be decoded. -/
def decodeFailInput : Input :=
  { pfx := "p", tifOpenOK := true, xmlParseOK := true,
    doc := oneChanDoc, dirs := [badDecodeDir] }

/-- A run whose selected directory's pixel buffer cannot be allocated. -/
def allocFailInput : Input :=
  { pfx := "p", tifOpenOK := true, xmlParseOK := true,
    doc := oneChanDoc, dirs := [badAllocDir] }

/-- A run whose container cannot be opened. -/
def badOpenInput : Input :=
  { pfx := "p", tifOpenOK := false, xmlParseOK := true,
    doc := oneChanDoc, dirs := [okDir] }

/-- A run whose metadata blob cannot be parsed. -/
def badXmlInput : Input :=
  { pfx := "p", tifOpenOK := true, xmlParseOK := false,
    doc := oneChanDoc, dirs := [okDir] }

/-- A run on a directory reporting 65536 x 65536 pixels, whose pixel count
overflows uint32 to 0. -/
def overflowInput : Input :=
  { pfx := "p", tifOpenOK := true, xmlParseOK := true,
    doc := { collections := [{ sizeX := some 10, sizeY := some 10 }]
             images := [{ views := [{ sizeX := 65536, sizeY := 65536 }]
                          dims := [{ r := 0, c := 0, ifd := 1 }] }] },
    dirs := [{ width := 65536, height := 65536, raster := fun _ => 0,
               decodeOK := true, allocOK := true, writeOK := true }] }

/-! Helper lemmas shared by the claim theorems. -/

theorem mkFile_bytes_length (pfx : String) (e : SelEntry) (d : TiffDir) :
    (mkFile pfx e d).bytes.length = u32 (d.width * d.height) := by
  simp [mkFile]

/-- C1 counterexample: the claim says an image whose first view matches the
collection but whose second view differs in both axes is still accepted
(here it would yield the entry with channel 0, ifd 1, field 0).  The code
reads only nodeTab[0] — the first view — so the image is rejected and the
selection list is empty. -/
theorem C1_counterexample :
    resolveImages 1000 1000 firstViewMatchImages 0 = [] ∧
    resolveImages 1000 1000 firstViewMatchImages 0 ≠
      [{ channelID := 0, tiffDir := 1, imageNo := 0 }] := by
  decide

/-- C2 counterexample: two r = 0 dimensions with the same channel id 0 in
one image.  The claim says only the last contributes, so the selection list
would be the single entry (c 0, ifd 2, field 0) and (field, channel) pairs
would never repeat.  The code pushes every node of the dimension node set,
so both entries appear and the pair (0, 0) repeats. -/
theorem C2_counterexample :
    resolveImages 1000 1000 dupChannelImages 0 =
      [{ channelID := 0, tiffDir := 1, imageNo := 0 },
       { channelID := 0, tiffDir := 2, imageNo := 0 }] ∧
    ¬ ((resolveImages 1000 1000 dupChannelImages 0).map
        (fun e => (e.imageNo, e.channelID))).Nodup := by
  decide

/-- C3: on the Scenario A container (collection 1000 x 1000, one image with
a 2000 x 1500 view and dimensions c 0/1/2 at ifd 1/2/3) the resolver yields
the selection list [(ifd 1, c 0, f 0), (ifd 2, c 1, f 0), (ifd 3, c 2, f 0)]
and scanning directories at positions 1, 2, 3 writes exactly the three
files out_Image0_Channel0_X2000_Y1500.bin, ..._Channel1_..., ..._Channel2_...,
each of 3000000 bytes. -/
theorem C3_scenarioA :
    resolveImages 1000 1000 scenarioDoc.images 0 =
      [{ channelID := 0, tiffDir := 1, imageNo := 0 },
       { channelID := 1, tiffDir := 2, imageNo := 0 },
       { channelID := 2, tiffDir := 3, imageNo := 0 }] ∧
    run scenarioInput = RunResult.ok
      [mkFile "out_" { channelID := 0, tiffDir := 1, imageNo := 0 } dir2000,
       mkFile "out_" { channelID := 1, tiffDir := 2, imageNo := 0 } dir2000,
       mkFile "out_" { channelID := 2, tiffDir := 3, imageNo := 0 } dir2000] ∧
    (mkFile "out_" { channelID := 0, tiffDir := 1, imageNo := 0 } dir2000).name =
      "out_Image0_Channel0_X2000_Y1500.bin" ∧
    (mkFile "out_" { channelID := 1, tiffDir := 2, imageNo := 0 } dir2000).name =
      "out_Image0_Channel1_X2000_Y1500.bin" ∧
    (mkFile "out_" { channelID := 2, tiffDir := 3, imageNo := 0 } dir2000).name =
      "out_Image0_Channel2_X2000_Y1500.bin" ∧
    (mkFile "out_" { channelID := 0, tiffDir := 1, imageNo := 0 } dir2000).bytes.length
      = 3000000 ∧
    (mkFile "out_" { channelID := 1, tiffDir := 2, imageNo := 0 } dir2000).bytes.length
      = 3000000 ∧
    (mkFile "out_" { channelID := 2, tiffDir := 3, imageNo := 0 } dir2000).bytes.length
      = 3000000 := by
  refine ⟨by decide, ?_, by decide, by decide, by decide, ?_, ?_, ?_⟩
  · simp [run, scenarioInput, scenarioDoc, resolveImages, selOfImage,
      scanLoop, dirStep, lastMatch, dir2000]
  all_goals rw [mkFile_bytes_length]; decide

/-- C4 counterexample: a parseable metadata blob whose //collection node
set is empty.  The claim says the run exits with code 2 and writes nothing;
the code instead dereferences nodeTab[0] of the empty node set — undefined
behaviour, not the documented exit. -/
theorem C4_counterexample :
    run noCollectionInput = RunResult.crash ∧
    run noCollectionInput ≠ RunResult.err 2 [] := by
  decide

/-- C5 counterexample: two selected directories, the first directory's
write fails, the second succeeds.  The claim says the write failure is
reported and terminates the run fatally; the code never inspects the
stream, so the run continues, processes the second directory, writes its
file and returns 0. -/
theorem C5_counterexample :
    run writeFailInput =
      RunResult.ok [{ name := "pImage0_Channel1_X2_Y1.bin", bytes := [0, 0] }] := by
  decide

/-- C6 counterexample: one image whose two r = 0 dimensions repeat the ifd
value 5.  The claim says directory indices in the selection list are
pairwise distinct even then; the code copies every ifd as-is, so the value
5 occurs twice. -/
theorem C6_counterexample :
    resolveImages 1000 1000 dupIfdImages 0 =
      [{ channelID := 0, tiffDir := 5, imageNo := 0 },
       { channelID := 1, tiffDir := 5, imageNo := 0 }] ∧
    ¬ ((resolveImages 1000 1000 dupIfdImages 0).map SelEntry.tiffDir).Nodup := by
  decide

/-- C9 counterexample: a directory reporting 65536 x 65536.  The claim says
the written file has width * height = 4294967296 bytes even beyond 2^32;
the code computes Npixels in uint32, which wraps to 0, so the file written
is empty. -/
theorem C9_counterexample :
    run overflowInput =
      RunResult.ok [{ name := "pImage0_Channel0_X65536_Y65536.bin", bytes := [] }] ∧
    (65536 : Nat) * 65536 ≠ 0 := by
  refine ⟨by decide, by norm_num⟩

/-- The foldl of the selection-matching loop keeps the last matching entry:
it equals find? over the reversed list. -/
theorem lastMatch_eq_find_reverse (sel : List SelEntry) (pos : Int) :
    lastMatch sel pos = sel.reverse.find? (fun s => decide (s.tiffDir = pos)) := by
  induction sel using List.reverseRecOn with
  | nil => rfl
  | append_singleton xs x ih =>
    by_cases hx : x.tiffDir = pos
    · simp [lastMatch, List.foldl_append, hx]
    · simp only [lastMatch, List.foldl_append, List.foldl_cons, List.foldl_nil,
        List.reverse_append, List.reverse_cons, List.reverse_nil, List.nil_append,
        List.singleton_append, List.find?_cons]
      simp only [lastMatch] at ih
      simp [hx, ih]

/-- C1 (amended): an image is accepted — its buffered (c, ifd) pairs become
entries tagged with the current field index and the counter advances — if
and only if its FIRST view element has sizeX different from the
collection's sizeX and sizeY different from the collection's sizeY; later
views are never examined, so an image whose first view matches the
collection but whose second view differs in both axes is rejected. -/
theorem C1_first_view_only (xc yc : Int) (img : ImgNode) (rest : List ImgNode)
    (icount : Nat) (v : ViewNode) (vs : List ViewNode) (hv : img.views = v :: vs) :
    resolveImages xc yc (img :: rest) icount =
      if v.sizeX ≠ xc ∧ v.sizeY ≠ yc then
        selOfImage img icount ++ resolveImages xc yc rest (icount + 1)
      else
        resolveImages xc yc rest icount := by
  simp only [resolveImages, hv]

/-- Witness for C1_first_view_only at the Scenario A image. -/
theorem C1_first_view_only_witness :
    resolveImages 1000 1000
      [{ views := [{ sizeX := 2000, sizeY := 1500 }],
         dims := [{ r := 0, c := 0, ifd := 1 }] }] 0 =
      if (2000 : Int) ≠ 1000 ∧ (1500 : Int) ≠ 1000 then
        selOfImage
          { views := [{ sizeX := 2000, sizeY := 1500 }],
            dims := [{ r := 0, c := 0, ifd := 1 }] } 0 ++ resolveImages 1000 1000 [] 1
      else
        resolveImages 1000 1000 [] 0 :=
  C1_first_view_only 1000 1000
    { views := [{ sizeX := 2000, sizeY := 1500 }],
      dims := [{ r := 0, c := 0, ifd := 1 }] } [] 0
    { sizeX := 2000, sizeY := 1500 } [] rfl

/-- C2 (amended): within one accepted image, EVERY r = 0 dimension element
contributes a selection entry, in document order; nothing is deduplicated,
so r = 0 dimensions repeating a channel id yield repeated
(field_index, channel_id) pairs. -/
theorem C2_every_dimension_kept (xc yc : Int) (img : ImgNode) (icount : Nat)
    (v : ViewNode) (vs : List ViewNode) (hv : img.views = v :: vs)
    (hx : v.sizeX ≠ xc) (hy : v.sizeY ≠ yc) :
    resolveImages xc yc [img] icount =
      (img.dims.filter fun d => decide (d.r = 0)).map
        (fun d => { channelID := d.c, tiffDir := d.ifd, imageNo := icount }) := by
  simp [resolveImages, hv, hx, hy, selOfImage]

/-- Witness for C2_every_dimension_kept at the duplicated-channel image. -/
theorem C2_every_dimension_kept_witness :
    resolveImages 1000 1000 dupChannelImages 0 =
      (({ views := [{ sizeX := 2000, sizeY := 1500 }],
          dims := [{ r := 0, c := 0, ifd := 1 },
                   { r := 0, c := 0, ifd := 2 }] } : ImgNode).dims.filter
        fun d => decide (d.r = 0)).map
        (fun d => { channelID := d.c, tiffDir := d.ifd, imageNo := 0 }) :=
  C2_every_dimension_kept 1000 1000
    { views := [{ sizeX := 2000, sizeY := 1500 }],
      dims := [{ r := 0, c := 0, ifd := 1 }, { r := 0, c := 0, ifd := 2 }] } 0
    { sizeX := 2000, sizeY := 1500 } [] rfl (by decide) (by decide)

/-- C7: an image whose only view has exactly the collection's dimensions
contributes zero selection entries and does not advance the field index
counter — removing it from the image list, wherever it sits, leaves the
resolver's output unchanged, so field numbering is continuous across
rejected images. -/
theorem C7_rejected_image_skipped (xc yc : Int) (pre post : List ImgNode)
    (img : ImgNode) (v : ViewNode) (hv : img.views = [v])
    (hx : v.sizeX = xc) (hy : v.sizeY = yc) (n : Nat) :
    resolveImages xc yc (pre ++ img :: post) n = resolveImages xc yc (pre ++ post) n := by
  induction pre generalizing n with
  | nil =>
    simp [resolveImages, hv, hx, hy]
  | cons h t ih =>
    simp only [List.cons_append]
    cases hw : h.views with
    | nil => simp [resolveImages, hw]
    | cons w ws =>
      by_cases hc : w.sizeX ≠ xc ∧ w.sizeY ≠ yc
      · simp only [resolveImages, hw]
        simp [hc, ih]
      · simp only [resolveImages, hw]
        simp [hc, ih]

/-- Witness for C7_rejected_image_skipped: a collection-sized image between
two accepted images is skipped without disturbing field numbering. -/
theorem C7_rejected_image_skipped_witness :
    resolveImages 1000 1000
      ([{ views := [{ sizeX := 2000, sizeY := 1500 }],
          dims := [{ r := 0, c := 0, ifd := 1 }] }] ++
        { views := [{ sizeX := 1000, sizeY := 1000 }], dims := [] } ::
          [{ views := [{ sizeX := 3000, sizeY := 2500 }],
             dims := [{ r := 0, c := 0, ifd := 7 }] }]) 0 =
    resolveImages 1000 1000
      ([{ views := [{ sizeX := 2000, sizeY := 1500 }],
          dims := [{ r := 0, c := 0, ifd := 1 }] }] ++
        [{ views := [{ sizeX := 3000, sizeY := 2500 }],
           dims := [{ r := 0, c := 0, ifd := 7 }] }]) 0 :=
  C7_rejected_image_skipped 1000 1000
    [{ views := [{ sizeX := 2000, sizeY := 1500 }],
       dims := [{ r := 0, c := 0, ifd := 1 }] }]
    [{ views := [{ sizeX := 3000, sizeY := 2500 }],
       dims := [{ r := 0, c := 0, ifd := 7 }] }]
    { views := [{ sizeX := 1000, sizeY := 1000 }], dims := [] }
    { sizeX := 1000, sizeY := 1000 } rfl rfl rfl 0

/-- C10: when several selection entries carry the current traversal
position as their directory index, the scanner writes exactly one file for
that directory, labeled with the channel id and field index of the last
such entry in selection-list order (iwrite is overwritten by each match);
the earlier matching entries produce no file, and the scan continues with
the next directory. -/
theorem C10_last_match_wins (pfx : String) (sel : List SelEntry) (pos : Int)
    (d : TiffDir) (rest : List TiffDir) (acc : List OutFile) (e : SelEntry)
    (hlast : sel.reverse.find? (fun s => decide (s.tiffDir = pos)) = some e)
    (ha : d.allocOK = true) (hd : d.decodeOK = true) (hw : d.writeOK = true) :
    scanLoop pfx sel (d :: rest) pos acc =
      scanLoop pfx sel rest (pos + 1) (acc ++ [mkFile pfx e d]) := by
  have hm : lastMatch sel pos = some e := by
    rw [lastMatch_eq_find_reverse, hlast]
  simp [scanLoop, dirStep, hm, ha, hd, hw]

/-- C4 (amended): with the container open, a metadata blob that
xmlParseMemory cannot parse exits with code 2 and no files; but a blob that
parses while lacking a collection element, or whose collection lacks its
sizeX or sizeY attribute, makes the code dereference a NULL pointer
(undefined behaviour), not exit 2. -/
theorem C4_metadata_failures (inp : Input) (hopen : inp.tifOpenOK = true) :
    (inp.xmlParseOK = false → run inp = RunResult.err 2 []) ∧
    (inp.xmlParseOK = true → inp.doc.collections = [] → run inp = RunResult.crash) ∧
    (∀ c cs, inp.xmlParseOK = true → inp.doc.collections = c :: cs →
      c.sizeX = none ∨ c.sizeY = none → run inp = RunResult.crash) := by
  refine ⟨fun hp => ?_, fun hp hc => ?_, fun c cs hp hc hnone => ?_⟩
  · simp [run, hopen, hp]
  · simp [run, hopen, hp, hc]
  · rcases hnone with hx | hy
    · simp [run, hopen, hp, hc, hx]
    · cases hx : c.sizeX with
      | none => simp [run, hopen, hp, hc, hx]
      | some xc => simp [run, hopen, hp, hc, hx, hy]

/-- Witness for C4_metadata_failures at the three failure inputs. -/
theorem C4_metadata_failures_witness :
    run badXmlInput = RunResult.err 2 [] ∧
    run noCollectionInput = RunResult.crash ∧
    run noSizeXInput = RunResult.crash :=
  ⟨(C4_metadata_failures badXmlInput rfl).1 rfl,
   (C4_metadata_failures noCollectionInput rfl).2.1 rfl rfl,
   (C4_metadata_failures noSizeXInput rfl).2.2
     { sizeX := none, sizeY := some 10 } [] rfl rfl (Or.inl rfl)⟩

/-- C5 (amended): the plane writer never checks the output stream; when the
write for a matched directory fails, no file results for it and the scan
simply continues with the next directory — the failure is neither reported
nor fatal. -/
theorem C5_write_failure_ignored (pfx : String) (sel : List SelEntry) (pos : Int)
    (d : TiffDir) (rest : List TiffDir) (acc : List OutFile)
    (ha : d.allocOK = true) (hd : d.decodeOK = true) (hw : d.writeOK = false) :
    scanLoop pfx sel (d :: rest) pos acc = scanLoop pfx sel rest (pos + 1) acc := by
  cases hm : lastMatch sel pos with
  | none => simp [scanLoop, dirStep, hm]
  | some e => simp [scanLoop, dirStep, hm, ha, hd, hw]

/-- Witness for C5_write_failure_ignored: a matched directory whose write
fails is skipped and the scan goes on. -/
theorem C5_write_failure_ignored_witness :
    scanLoop "p" [{ channelID := 0, tiffDir := 1, imageNo := 0 }]
      [badWriteDir, okDir] 1 [] =
    scanLoop "p" [{ channelID := 0, tiffDir := 1, imageNo := 0 }] [okDir] 2 [] :=
  C5_write_failure_ignored "p" [{ channelID := 0, tiffDir := 1, imageNo := 0 }]
    1 badWriteDir [okDir] [] rfl rfl rfl

/-- The directory indices the resolver outputs form a sublist of the ifd
values of all r = 0 dimensions in the metadata. -/
theorem resolve_ifds_sublist (xc yc : Int) :
    ∀ (imgs : List ImgNode) (n : Nat),
      ((resolveImages xc yc imgs n).map SelEntry.tiffDir).Sublist (allR0Ifds imgs) := by
  intro imgs
  induction imgs with
  | nil => intro n; simp [resolveImages]
  | cons img rest ih =>
    intro n
    have hsplit : allR0Ifds (img :: rest) =
        ((img.dims.filter fun d => decide (d.r = 0)).map DimNode.ifd) ++ allR0Ifds rest := by
      simp [allR0Ifds]
    cases hw : img.views with
    | nil => simp [resolveImages, hw]
    | cons v vs =>
      by_cases hc : v.sizeX ≠ xc ∧ v.sizeY ≠ yc
      · have h1 : (selOfImage img n).map SelEntry.tiffDir =
            (img.dims.filter fun d => decide (d.r = 0)).map DimNode.ifd := by
          simp [selOfImage, List.map_map]
        simp only [resolveImages, hw, if_pos hc, List.map_append, hsplit, h1]
        exact List.Sublist.append (List.Sublist.refl _) (ih (n + 1))
      · simp only [resolveImages, hw, if_neg hc, hsplit]
        exact (ih n).trans (List.sublist_append_right _ _)

/-- C6 (amended): the resolver copies ifd values verbatim and never checks
them, so the selection list's directory indices are pairwise distinct
exactly when the metadata supplies distinct ifds: distinctness of the
r = 0 dimensions' ifd values is sufficient (and the code enforces
nothing when they repeat, as the counterexample shows). -/
theorem C6_distinct_when_input_distinct (xc yc : Int) (imgs : List ImgNode) (n : Nat)
    (h : (allR0Ifds imgs).Nodup) :
    ((resolveImages xc yc imgs n).map SelEntry.tiffDir).Nodup :=
  List.Nodup.sublist (resolve_ifds_sublist xc yc imgs n) h

/-- Witness for C6_distinct_when_input_distinct at the Scenario A
metadata. -/
theorem C6_distinct_when_input_distinct_witness :
    ((resolveImages 1000 1000 scenarioDoc.images 0).map SelEntry.tiffDir).Nodup :=
  C6_distinct_when_input_distinct 1000 1000 scenarioDoc.images 0 (by decide)

/-- A scan over directories that all decode and allocate successfully ends
with a normal return, whatever the write outcomes. -/
theorem scanLoop_all_ok (pfx : String) (sel : List SelEntry) :
    ∀ (dirs : List TiffDir) (pos : Int) (acc : List OutFile),
      (∀ d ∈ dirs, d.allocOK = true ∧ d.decodeOK = true) →
      ∃ fs, scanLoop pfx sel dirs pos acc = RunResult.ok fs := by
  intro dirs
  induction dirs with
  | nil => intro pos acc _; exact ⟨acc, rfl⟩
  | cons d rest ih =>
    intro pos acc hall
    obtain ⟨ha, hd⟩ := hall d (List.mem_cons_self _ _)
    have hrest : ∀ x ∈ rest, x.allocOK = true ∧ x.decodeOK = true :=
      fun x hx => hall x (List.mem_cons_of_mem _ hx)
    cases hm : lastMatch sel pos with
    | none =>
      have step : scanLoop pfx sel (d :: rest) pos acc =
          scanLoop pfx sel rest (pos + 1) acc := by
        simp [scanLoop, dirStep, hm]
      rw [step]; exact ih (pos + 1) acc hrest
    | some e =>
      cases hwk : d.writeOK with
      | true =>
        have step : scanLoop pfx sel (d :: rest) pos acc =
            scanLoop pfx sel rest (pos + 1) (acc ++ [mkFile pfx e d]) := by
          simp [scanLoop, dirStep, hm, ha, hd, hwk]
        rw [step]; exact ih (pos + 1) _ hrest
      | false =>
        have step : scanLoop pfx sel (d :: rest) pos acc =
            scanLoop pfx sel rest (pos + 1) acc := by
          simp [scanLoop, dirStep, hm, ha, hd, hwk]
        rw [step]; exact ih (pos + 1) acc hrest

/-- A leading block of directories that all decode and allocate successfully is
fully consumed: scanning pre ++ rest equals scanning rest from position
pos + pre.length with some accumulated files, independently of rest. -/
theorem scanLoop_skip_pre (pfx : String) (sel : List SelEntry) :
    ∀ (pre : List TiffDir) (pos : Int) (acc : List OutFile),
      (∀ x ∈ pre, x.allocOK = true ∧ x.decodeOK = true) →
      ∃ acc2, ∀ rest, scanLoop pfx sel (pre ++ rest) pos acc =
        scanLoop pfx sel rest (pos + pre.length) acc2 := by
  intro pre
  induction pre with
  | nil =>
    intro pos acc _
    exact ⟨acc, fun rest => by simp⟩
  | cons d t ih =>
    intro pos acc hall
    obtain ⟨ha, hd⟩ := hall d (List.mem_cons_self _ _)
    have ht : ∀ x ∈ t, x.allocOK = true ∧ x.decodeOK = true :=
      fun x hx => hall x (List.mem_cons_of_mem _ hx)
    have step : ∃ acc1, ∀ rest2, scanLoop pfx sel (d :: rest2) pos acc =
        scanLoop pfx sel rest2 (pos + 1) acc1 := by
      cases hm : lastMatch sel pos with
      | none => exact ⟨acc, fun rest2 => by simp [scanLoop, dirStep, hm]⟩
      | some e =>
        cases hwk : d.writeOK with
        | true =>
          exact ⟨acc ++ [mkFile pfx e d],
            fun rest2 => by simp [scanLoop, dirStep, hm, ha, hd, hwk]⟩
        | false =>
          exact ⟨acc, fun rest2 => by simp [scanLoop, dirStep, hm, ha, hd, hwk]⟩
    obtain ⟨acc1, hstep⟩ := step
    obtain ⟨acc2, hacc2⟩ := ih (pos + 1) acc1 ht
    refine ⟨acc2, fun rest => ?_⟩
    rw [List.cons_append, hstep (t ++ rest), hacc2 rest]
    have harith : pos + 1 + (t.length : Int) = pos + ((d :: t).length : Int) := by
      simp [List.length_cons]; omega
    rw [harith]

/-- A matched directory whose allocation or decode fails stops the scan at
once with the corresponding exit code and the files accumulated so far. -/
theorem scanLoop_err_at_head (pfx : String) (sel : List SelEntry) (pos : Int)
    (d : TiffDir) (rest : List TiffDir) (acc : List OutFile) (e : SelEntry)
    (hm : lastMatch sel pos = some e) :
    (d.allocOK = true → d.decodeOK = false →
      scanLoop pfx sel (d :: rest) pos acc = RunResult.err 3 acc) ∧
    (d.allocOK = false →
      scanLoop pfx sel (d :: rest) pos acc = RunResult.err 4 acc) := by
  refine ⟨fun ha hd => ?_, fun ha => ?_⟩
  · simp [scanLoop, dirStep, hm, ha, hd]
  · simp [scanLoop, dirStep, hm, ha]

/-- With the container open and the metadata in order, a run reduces to the
directory scan from position 1. -/
theorem run_eq_scan (inp : Input) (c : CollNode) (cs : List CollNode)
    (xc yc : Int) (hopen : inp.tifOpenOK = true) (hparse : inp.xmlParseOK = true)
    (hcoll : inp.doc.collections = c :: cs)
    (hx : c.sizeX = some xc) (hy : c.sizeY = some yc) :
    run inp = scanLoop inp.pfx (resolveImages xc yc inp.doc.images 0) inp.dirs 1 [] := by
  simp [run, hopen, hparse, hcoll, hx, hy]

/-- C8: exit code 0 on success; 1 when the container cannot be opened; 2
when the metadata blob cannot be parsed; 3 when a selected directory's
pixel data cannot be decoded; 4 when the pixel buffer cannot be allocated.
The code-3 and code-4 parts also state immediacy: directories after the
failing one do not affect the outcome (the run equals the run truncated at
the failing directory). -/
theorem C8_exit_codes (inp : Input) :
    (inp.tifOpenOK = false → run inp = RunResult.err 1 []) ∧
    (inp.tifOpenOK = true → inp.xmlParseOK = false → run inp = RunResult.err 2 []) ∧
    (∀ c cs xc yc, inp.tifOpenOK = true → inp.xmlParseOK = true →
      inp.doc.collections = c :: cs → c.sizeX = some xc → c.sizeY = some yc →
      (∀ d ∈ inp.dirs, d.allocOK = true ∧ d.decodeOK = true) →
      ∃ fs, run inp = RunResult.ok fs) ∧
    (∀ c cs xc yc pre d post e, inp.tifOpenOK = true → inp.xmlParseOK = true →
      inp.doc.collections = c :: cs → c.sizeX = some xc → c.sizeY = some yc →
      inp.dirs = pre ++ d :: post →
      (∀ x ∈ pre, x.allocOK = true ∧ x.decodeOK = true) →
      lastMatch (resolveImages xc yc inp.doc.images 0) (1 + (pre.length : Int)) = some e →
      d.allocOK = true → d.decodeOK = false →
      ∃ fs, run inp = RunResult.err 3 fs ∧
        run { inp with dirs := pre ++ [d] } = RunResult.err 3 fs) ∧
    (∀ c cs xc yc pre d post e, inp.tifOpenOK = true → inp.xmlParseOK = true →
      inp.doc.collections = c :: cs → c.sizeX = some xc → c.sizeY = some yc →
      inp.dirs = pre ++ d :: post →
      (∀ x ∈ pre, x.allocOK = true ∧ x.decodeOK = true) →
      lastMatch (resolveImages xc yc inp.doc.images 0) (1 + (pre.length : Int)) = some e →
      d.allocOK = false →
      ∃ fs, run inp = RunResult.err 4 fs ∧
        run { inp with dirs := pre ++ [d] } = RunResult.err 4 fs) := by
  refine ⟨fun h1 => ?_, fun h1 h2 => ?_, ?_, ?_, ?_⟩
  · simp [run, h1]
  · simp [run, h1, h2]
  · intro c cs xc yc hopen hparse hcoll hx hy hall
    rw [run_eq_scan inp c cs xc yc hopen hparse hcoll hx hy]
    exact scanLoop_all_ok inp.pfx _ inp.dirs 1 [] hall
  · intro c cs xc yc pre d post e hopen hparse hcoll hx hy hdirs hpre hm ha hd
    obtain ⟨acc2, hacc⟩ :=
      scanLoop_skip_pre inp.pfx (resolveImages xc yc inp.doc.images 0) pre 1 [] hpre
    have herr := (scanLoop_err_at_head inp.pfx
      (resolveImages xc yc inp.doc.images 0) (1 + (pre.length : Int)) d post acc2 e hm).1 ha hd
    refine ⟨acc2, ?_, ?_⟩
    · rw [run_eq_scan inp c cs xc yc hopen hparse hcoll hx hy, hdirs, hacc (d :: post)]
      exact herr
    · rw [run_eq_scan { inp with dirs := pre ++ [d] } c cs xc yc hopen hparse hcoll hx hy]
      show scanLoop inp.pfx (resolveImages xc yc inp.doc.images 0) (pre ++ [d]) 1 [] =
        RunResult.err 3 acc2
      rw [hacc [d]]
      exact (scanLoop_err_at_head inp.pfx
        (resolveImages xc yc inp.doc.images 0) (1 + (pre.length : Int)) d [] acc2 e hm).1 ha hd
  · intro c cs xc yc pre d post e hopen hparse hcoll hx hy hdirs hpre hm ha
    obtain ⟨acc2, hacc⟩ :=
      scanLoop_skip_pre inp.pfx (resolveImages xc yc inp.doc.images 0) pre 1 [] hpre
    have herr := (scanLoop_err_at_head inp.pfx
      (resolveImages xc yc inp.doc.images 0) (1 + (pre.length : Int)) d post acc2 e hm).2 ha
    refine ⟨acc2, ?_, ?_⟩
    · rw [run_eq_scan inp c cs xc yc hopen hparse hcoll hx hy, hdirs, hacc (d :: post)]
      exact herr
    · rw [run_eq_scan { inp with dirs := pre ++ [d] } c cs xc yc hopen hparse hcoll hx hy]
      show scanLoop inp.pfx (resolveImages xc yc inp.doc.images 0) (pre ++ [d]) 1 [] =
        RunResult.err 4 acc2
      rw [hacc [d]]
      exact (scanLoop_err_at_head inp.pfx
        (resolveImages xc yc inp.doc.images 0) (1 + (pre.length : Int)) d [] acc2 e hm).2 ha

/-- Witness for C8_exit_codes: each of the five exit behaviours at a
concrete input. -/
theorem C8_exit_codes_witness :
    run badOpenInput = RunResult.err 1 [] ∧
    run badXmlInput = RunResult.err 2 [] ∧
    (∃ fs, run smallInput = RunResult.ok fs) ∧
    (∃ fs, run decodeFailInput = RunResult.err 3 fs ∧
      run { decodeFailInput with dirs := [] ++ [badDecodeDir] } = RunResult.err 3 fs) ∧
    (∃ fs, run allocFailInput = RunResult.err 4 fs ∧
      run { allocFailInput with dirs := [] ++ [badAllocDir] } = RunResult.err 4 fs) :=
  ⟨(C8_exit_codes badOpenInput).1 rfl,
   (C8_exit_codes badXmlInput).2.1 rfl rfl,
   (C8_exit_codes smallInput).2.2.1 { sizeX := some 10, sizeY := some 10 } [] 10 10
     rfl rfl rfl rfl rfl (by decide),
   (C8_exit_codes decodeFailInput).2.2.2.1 { sizeX := some 10, sizeY := some 10 } []
     10 10 [] badDecodeDir [] { channelID := 0, tiffDir := 1, imageNo := 0 }
     rfl rfl rfl rfl rfl rfl (by simp) (by decide) rfl rfl,
   (C8_exit_codes allocFailInput).2.2.2.2 { sizeX := some 10, sizeY := some 10 } []
     10 10 [] badAllocDir [] { channelID := 0, tiffDir := 1, imageNo := 0 }
     rfl rfl rfl rfl rfl rfl (by simp) (by decide) rfl⟩

/-- Every file the scan leaves on disk beyond the initial accumulator is
the mkFile of some visited directory and some selection entry. -/
theorem scanLoop_files_from_dirs (pfx : String) (sel : List SelEntry) :
    ∀ (dirs : List TiffDir) (pos : Int) (acc : List OutFile) (f : OutFile),
      f ∈ filesOf (scanLoop pfx sel dirs pos acc) →
      f ∈ acc ∨ ∃ d ∈ dirs, ∃ e : SelEntry, f = mkFile pfx e d := by
  intro dirs
  induction dirs with
  | nil => intro pos acc f hf; exact Or.inl (by simpa [scanLoop, filesOf] using hf)
  | cons d rest ih =>
    intro pos acc f hf
    have push : ∀ d2, d2 ∈ rest → d2 ∈ d :: rest := fun d2 h => List.mem_cons_of_mem _ h
    cases hm : lastMatch sel pos with
    | none =>
      rw [show scanLoop pfx sel (d :: rest) pos acc =
          scanLoop pfx sel rest (pos + 1) acc from by simp [scanLoop, dirStep, hm]] at hf
      rcases ih (pos + 1) acc f hf with h | ⟨d2, hd2, e2, he2⟩
      · exact Or.inl h
      · exact Or.inr ⟨d2, push d2 hd2, e2, he2⟩
    | some e =>
      cases ha : d.allocOK with
      | false =>
        rw [show scanLoop pfx sel (d :: rest) pos acc = RunResult.err 4 acc from by
          simp [scanLoop, dirStep, hm, ha]] at hf
        exact Or.inl (by simpa [filesOf] using hf)
      | true =>
        cases hdk : d.decodeOK with
        | false =>
          rw [show scanLoop pfx sel (d :: rest) pos acc = RunResult.err 3 acc from by
            simp [scanLoop, dirStep, hm, ha, hdk]] at hf
          exact Or.inl (by simpa [filesOf] using hf)
        | true =>
          cases hwk : d.writeOK with
          | false =>
            rw [show scanLoop pfx sel (d :: rest) pos acc =
                scanLoop pfx sel rest (pos + 1) acc from by
              simp [scanLoop, dirStep, hm, ha, hdk, hwk]] at hf
            rcases ih (pos + 1) acc f hf with h | ⟨d2, hd2, e2, he2⟩
            · exact Or.inl h
            · exact Or.inr ⟨d2, push d2 hd2, e2, he2⟩
          | true =>
            rw [show scanLoop pfx sel (d :: rest) pos acc =
                scanLoop pfx sel rest (pos + 1) (acc ++ [mkFile pfx e d]) from by
              simp [scanLoop, dirStep, hm, ha, hdk, hwk]] at hf
            rcases ih (pos + 1) _ f hf with h | ⟨d2, hd2, e2, he2⟩
            · rcases List.mem_append.mp h with h1 | h1
              · exact Or.inl h1
              · exact Or.inr ⟨d, List.mem_cons_self _ _, e, List.mem_singleton.mp h1⟩
            · exact Or.inr ⟨d2, push d2 hd2, e2, he2⟩

/-- C9 (amended): every plane file a run writes belongs to a matched
directory and its byte length is width * height reduced modulo 2^32
(Npixels is computed in uint32), hence equals width * height exactly only
when the product stays below 2^32. -/
theorem C9_plane_length_mod32 (inp : Input) (f : OutFile)
    (hf : f ∈ filesOf (run inp)) :
    ∃ d ∈ inp.dirs, ∃ e : SelEntry,
      f = mkFile inp.pfx e d ∧ f.bytes.length = d.width * d.height % 4294967296 := by
  simp only [run] at hf
  split at hf
  · simp [filesOf] at hf
  · split at hf
    · simp [filesOf] at hf
    · split at hf
      · simp [filesOf] at hf
      · split at hf
        · simp [filesOf] at hf
        · split at hf
          · simp [filesOf] at hf
          · rcases scanLoop_files_from_dirs inp.pfx _ inp.dirs 1 [] f hf with h | ⟨d, hd, e, he⟩
            · simp at h
            · exact ⟨d, hd, e, he, by rw [he, mkFile_bytes_length]; rfl⟩

/-- Witness for C9_plane_length_mod32 at the successful 2 x 1 run. -/
theorem C9_plane_length_mod32_witness :
    ∃ d ∈ smallInput.dirs, ∃ e : SelEntry,
      ({ name := "pImage0_Channel0_X2_Y1.bin", bytes := [0, 0] } : OutFile) =
        mkFile smallInput.pfx e d ∧
      ({ name := "pImage0_Channel0_X2_Y1.bin", bytes := [0, 0] } : OutFile).bytes.length =
        d.width * d.height % 4294967296 :=
  C9_plane_length_mod32 smallInput
    { name := "pImage0_Channel0_X2_Y1.bin", bytes := [0, 0] } (by decide)

/-- Witness for C10_last_match_wins: two entries both pointing at directory
1; the single file written carries the second entry's labels. -/
theorem C10_last_match_wins_witness :
    scanLoop "p"
      [{ channelID := 0, tiffDir := 1, imageNo := 0 },
       { channelID := 1, tiffDir := 1, imageNo := 0 }] [okDir] 1 [] =
    scanLoop "p"
      [{ channelID := 0, tiffDir := 1, imageNo := 0 },
       { channelID := 1, tiffDir := 1, imageNo := 0 }] [] 2
      ([] ++ [mkFile "p" { channelID := 1, tiffDir := 1, imageNo := 0 } okDir]) :=
  C10_last_match_wins "p"
    [{ channelID := 0, tiffDir := 1, imageNo := 0 },
     { channelID := 1, tiffDir := 1, imageNo := 0 }] 1 okDir [] []
    { channelID := 1, tiffDir := 1, imageNo := 0 } (by decide) rfl rfl rfl

end SlideData
